import Mathlib

/-!
Shallow embedding of the request-construction / response-validation core of
the ai-voice-detection API tester, translated from
`src/components/api_tester.py` and `src/components/validators.py`, together
with proofs of the specification claims about it.

Python strings are modelled as Lean `String` (Python slicing and `len` count
code points, as Lean `String.data` does); Python ints as `Int`; Python floats
appearing in the core (latency, confidence) as `ℚ`; JSON values as the
inductive `JVal`; Python dicts carrying JSON as association lists preserving
insertion order; Python functions that can raise as `Except String`
(the error payload is `str(e)`).
-/

namespace VoiceDetect

/-- Python `str.strip()` whitespace set, restricted to its ASCII members
(`' '`, `\t`, `\n`, `\r`, `\x0b`, `\x0c`); the Unicode whitespace code points
Python additionally strips do not occur in any value this development
evaluates. -/
def pyIsSpace (c : Char) : Bool :=
  c = ' ' || c = '\t' || c = '\n' || c = '\r' || c = '\x0b' || c = '\x0c'

/-- Python `s.strip()`: drop leading and trailing whitespace. -/
def pyStrip (s : String) : String :=
  ⟨(s.data.dropWhile pyIsSpace).reverse.dropWhile pyIsSpace |>.reverse⟩

/-- Python `s[:n]` for `n ≥ 0`: first `n` code points. -/
def pySlice (s : String) (n : Nat) : String :=
  ⟨s.data.take n⟩

/-- Python `s.split(sep)[0]`: the prefix of `s` before the first occurrence of
the one-character separator (the whole string when absent). -/
def pySplitFirst (s : String) (sep : Char) : String :=
  ⟨s.data.takeWhile (fun c => c ≠ sep)⟩

/-- Python `s.startswith(pre)`. -/
def pyStartsWith (s pre : String) : Bool :=
  pre.data.isPrefixOf s.data

/-- Python `s.endswith(suf)`. -/
def pyEndsWith (s suf : String) : Bool :=
  suf.data.isSuffixOf s.data

/-- Python `c.lower()` for the ASCII range (every character any claim
lowercases is ASCII). -/
def asciiLower (c : Char) : Char :=
  if 'A' ≤ c && c ≤ 'Z' then Char.ofNat (c.toNat + 32) else c

/-- Python `s.lower()`. -/
def pyLower (s : String) : String :=
  ⟨s.data.map asciiLower⟩

/-! ### JSON values (results of `response.json()` / inputs of the schema
validator, which in Python are parsed-JSON `dict`s) -/

/-- A parsed JSON value.  Numbers are modelled as `ℚ` together with a flag
recording whether the Python value is an `int` (JSON integer literal) or a
`float`, which Python's `type(x).__name__` can observe. -/
inductive JVal where
  | null : JVal
  | bool (b : Bool) : JVal
  | num (q : ℚ) (isInt : Bool) : JVal
  | str (s : String) : JVal
  | arr (elems : List JVal) : JVal
  | obj (fields : List (String × JVal)) : JVal
deriving BEq, Repr

/-- A parsed JSON object / Python dict: keys in insertion order.  Python dicts
have unique keys; lookups below use the first binding, so theorems quantified
over arbitrary association lists cover the unique-key case. -/
abbrev JObj := List (String × JVal)

/-- Python `d[k]` / `k in d` on a dict, as an optional lookup. -/
def jlookup (d : JObj) (k : String) : Option JVal :=
  match d with
  | [] => none
  | (k', v) :: rest => if k' = k then some v else jlookup rest k

/-! ### `api_tester.py` — `APITester` -/

/-- `TestResult` dataclass (`api_tester.py`).  `latency_ms` is a Python float,
modelled as `ℚ`. -/
structure TestResult where
  success : Bool
  status_code : Int
  latency_ms : ℚ
  response_data : Option JObj
  error_message : String
  raw_response : String

/-- The `APITester` constructor state: `endpoint_url` and `api_key` are
stripped in `__init__`; `timeout` is an `int` number of seconds
(default 15). -/
structure APITester where
  endpoint_url : String
  api_key : String
  timeout : Int

/-- `APITester.__init__`. -/
def APITester.make (endpoint_url api_key : String) (timeout : Int := 15) : APITester :=
  { endpoint_url := pyStrip endpoint_url, api_key := pyStrip api_key, timeout := timeout }

/-- The payload dict built by `APITester.build_payload`: fixed keys
`language` and `metadata`, plus exactly one of the optional audio keys.
`none` models the key being absent from the dict. -/
structure Payload where
  language : String
  metadata_message : String
  metadata_timestamp : String
  metadata_tester : String
  audio_url : Option String
  audio_base64 : Option String

/-- `APITester.build_payload`.  The wall-clock timestamp
(`time.strftime("%Y-%m-%dT%H:%M:%SZ", time.gmtime())`) is an input of the
embedding.  Python's `message if message else "API Test Request"` tests string
truthiness, i.e. non-emptiness. -/
def APITester.build_payload (_self : APITester)
    (audio_mode : String := "url") (audio_url : String := "")
    (audio_base64 : String := "") (language : String := "auto")
    (message : String := "") (timestamp : String := "") : Payload :=
  let base : Payload :=
    { language := language
      metadata_message := if message ≠ "" then message else "API Test Request"
      metadata_timestamp := timestamp
      metadata_tester := "AI Voice API Tester v2.0"
      audio_url := none
      audio_base64 := none }
  -- "Add audio based on mode - NEVER both"
  if audio_mode = "url" then
    { base with audio_url := some (pyStrip audio_url) }
  else
    { base with audio_base64 := some (pyStrip audio_base64) }

/-- Python `round(x, 2)` on the latency float: round half-to-even at two
decimal places (`round` in Python is banker's rounding; the binary-float
representation error of the argument is not modelled). -/
def pyRound2 (q : ℚ) : ℚ :=
  let x := q * 100
  let f : ℤ := ⌊x⌋
  let r := x - (f : ℚ)
  let n : ℤ :=
    if r < 1/2 then f
    else if 1/2 < r then f + 1
    else if f % 2 = 0 then f else f + 1
  (n : ℚ) / 100

/-- The outcome of the single `requests.post` call inside
`APITester.send_request`, i.e. which of its `try`/`except` arms runs.  A
received HTTP response carries its status code, body text, the result of
`response.json()` (`none` when the body is not JSON), and the measured
elapsed time in milliseconds; each exception arm carries `str(e)` of the
raised exception. -/
inductive NetOutcome where
  | response (status : Int) (text : String) (json : Option JObj) (elapsed_ms : ℚ)
  | timeout
  | connectionError (excText : String)
  | requestException (excText : String)
  | unexpectedError (excText : String)

/-- `APITester.send_request`, as a function of the network outcome.  Each
branch mirrors one `return TestResult(...)` in the source. -/
def APITester.send_request (self : APITester) (o : NetOutcome) : TestResult :=
  match o with
  | .response status text json elapsed_ms =>
    { success := decide (200 ≤ status ∧ status < 300)
      status_code := status
      latency_ms := pyRound2 elapsed_ms
      response_data := json
      error_message := ""
      raw_response := pySlice text 2000 }  -- response.text[:2000]
  | .timeout =>
    { success := false
      status_code := 408
      latency_ms := (self.timeout : ℚ) * 1000
      response_data := none
      error_message := "Request timed out after " ++ toString self.timeout ++ " seconds"
      raw_response := "" }
  | .connectionError e =>
    { success := false
      status_code := 0
      latency_ms := 0
      response_data := none
      error_message := "Connection failed: Unable to reach the endpoint. Check if URL is correct."
      raw_response := pySlice e 500 }  -- str(e)[:500]
  | .requestException e =>
    { success := false
      status_code := 0
      latency_ms := 0
      response_data := none
      error_message := "Request failed: " ++ e
      raw_response := "" }
  | .unexpectedError e =>
    { success := false
      status_code := 0
      latency_ms := 0
      response_data := none
      error_message := "Unexpected error: " ++ e
      raw_response := "" }

/-! ### `validators.py` — `interpret_status_code` -/

/-- The verdict dict returned by `interpret_status_code`. -/
structure StatusVerdict where
  verdict : String
  message : String
  severity : String
deriving DecidableEq

/-- The explicit `status_map` table inside `interpret_status_code`. -/
def status_map : List (Int × StatusVerdict) :=
  [ (200, ⟨"PASS", "Success - API responded correctly", "success"⟩),
    (201, ⟨"PASS", "Created - Request processed", "success"⟩),
    (400, ⟨"FAIL", "Bad Request - Check your payload format", "error"⟩),
    (401, ⟨"FAIL", "Unauthorized - Invalid or missing API key", "error"⟩),
    (403, ⟨"FAIL", "Forbidden - API key lacks permissions", "error"⟩),
    (404, ⟨"FAIL", "Not Found - Wrong endpoint URL", "error"⟩),
    (405, ⟨"FAIL", "Method Not Allowed - Endpoint doesn't accept POST", "error"⟩),
    (408, ⟨"FAIL", "Request Timeout - API took too long", "warning"⟩),
    (422, ⟨"FAIL", "Unprocessable Entity - Invalid data format", "error"⟩),
    (429, ⟨"FAIL", "Too Many Requests - Rate limit exceeded", "warning"⟩),
    (500, ⟨"FAIL", "Internal Server Error - API crashed", "error"⟩),
    (502, ⟨"FAIL", "Bad Gateway - Server unreachable", "error"⟩),
    (503, ⟨"FAIL", "Service Unavailable - API is down", "error"⟩),
    (504, ⟨"FAIL", "Gateway Timeout - Server didn't respond", "error"⟩) ]

/-- `interpret_status_code` (`validators.py`): explicit table, then
range-based fallback. -/
def interpret_status_code (status_code : Int) : StatusVerdict :=
  match status_map.lookup status_code with
  | some v => v
  | none =>
    if 200 ≤ status_code ∧ status_code < 300 then
      ⟨"PASS", "Success (" ++ toString status_code ++ ")", "success"⟩
    else if 400 ≤ status_code ∧ status_code < 500 then
      ⟨"FAIL", "Client Error (" ++ toString status_code ++ ")", "error"⟩
    else if 500 ≤ status_code then
      ⟨"FAIL", "Server Error (" ++ toString status_code ++ ")", "error"⟩
    else
      ⟨"UNKNOWN", "Unexpected status code: " ++ toString status_code, "warning"⟩

/-! ### `urllib.parse.urlparse`, restricted to the `scheme`/`netloc`
attributes `validate_url` reads -/

/-- `urllib.parse.scheme_chars`: characters allowed in a URL scheme after the
leading letter. -/
def schemeChar (c : Char) : Bool :=
  ('a' ≤ c && c ≤ 'z') || ('A' ≤ c && c ≤ 'Z') || ('0' ≤ c && c ≤ '9') ||
    c = '+' || c = '-' || c = '.'

/-- `urllib.parse.urlsplit` restricted to the `(scheme, netloc)` pair:
removes the unsafe bytes `\t`, `\r`, `\n`, detects a scheme (first `:` at a
positive index, with an ASCII-letter start and only scheme characters before
it), and, when the remainder starts with `//`, takes the netloc up to the
first `/`, `?` or `#`, raising `ValueError("Invalid IPv6 URL")` on an
unmatched bracket.  (CPython additionally rejects some non-ASCII netlocs
after NFKC normalisation; no claim evaluates such inputs.) -/
def pyUrlsplit (url : String) : Except String (String × String) :=
  let cs := url.data.filter (fun c => c ≠ '\t' && c ≠ '\r' && c ≠ '\n')
  let i := cs.findIdx (fun c => c = ':')
  let hasScheme :=
    0 < i && i < cs.length &&
      (match cs with
       | [] => false
       | c0 :: _ => c0.toNat < 128 && (('a' ≤ c0 && c0 ≤ 'z') || ('A' ≤ c0 && c0 ≤ 'Z'))) &&
      (cs.take i).all schemeChar
  let scheme : String := if hasScheme then ⟨(cs.take i).map asciiLower⟩ else ""
  let rest : List Char := if hasScheme then cs.drop (i + 1) else cs
  match rest with
  | '/' :: '/' :: afterSlashes =>
    let netloc := afterSlashes.takeWhile (fun c => c ≠ '/' && c ≠ '?' && c ≠ '#')
    if (netloc.contains '[' && !netloc.contains ']') ||
        (netloc.contains ']' && !netloc.contains '[') then
      .error "Invalid IPv6 URL"
    else
      .ok (scheme, ⟨netloc⟩)
  | _ => .ok (scheme, "")

/-! ### Base64 (`base64.b64decode(s, validate=True)` and
`base64.b64encode`) -/

/-- Index of a character in the standard Base64 alphabet. -/
def b64Index (c : Char) : Option Nat :=
  if 'A' ≤ c && c ≤ 'Z' then some (c.toNat - 'A'.toNat)
  else if 'a' ≤ c && c ≤ 'z' then some (c.toNat - 'a'.toNat + 26)
  else if '0' ≤ c && c ≤ '9' then some (c.toNat - '0'.toNat + 52)
  else if c = '+' then some 62
  else if c = '/' then some 63
  else none

/-- Decode a run of 6-bit values (the data characters, padding removed) into
bytes: full quads give 3 bytes, a trailing pair gives 1 byte, a trailing
triple gives 2 bytes.  A leftover single character never reaches this
function on the success path. -/
def b64Quads : List Nat → List Nat
  | c0 :: c1 :: c2 :: c3 :: rest =>
    (c0 * 4 + c1 / 16) :: ((c1 % 16) * 16 + c2 / 4) :: ((c2 % 4) * 64 + c3) ::
      b64Quads rest
  | [c0, c1] => [c0 * 4 + c1 / 16]
  | [c0, c1, c2] => [c0 * 4 + c1 / 16, (c1 % 16) * 16 + c2 / 4]
  | _ => []

/-- `base64.b64decode(s, validate=True)` on a `str` argument, returning the
decoded bytes or `str(e)` of the raised exception.  The steps are CPython's:
the implicit `s.encode('ascii')` (ValueError on non-ASCII), the
`validate=True` full-match against `[A-Za-z0-9+/]*={0,2}`
(`binascii.Error('Non-base64 digit found')` otherwise), then the lenient
`binascii.a2b_base64`, which succeeds when the number `n` of data characters
satisfies `n % 4 = 0` (any padding), or `n % 4 = 2` with 2 pad characters, or
`n % 4 = 3` with at least 1. -/
def b64decodeStrict (s : String) : Except String (List Nat) :=
  let cs := s.data
  if cs.any (fun c => 128 ≤ c.toNat) then
    .error "string argument should contain only ASCII characters"
  else
    let p := (cs.reverse.takeWhile (fun c => c = '=')).length
    let dataChars := cs.take (cs.length - p)
    if 2 < p || dataChars.any (fun c => (b64Index c).isNone) then
      .error "Non-base64 digit found"
    else
      let n := dataChars.length
      let vals := dataChars.map (fun c => (b64Index c).getD 0)
      if n % 4 = 1 then
        .error ("Invalid base64-encoded string: number of data characters (" ++
          toString n ++ ") cannot be 1 more than a multiple of 4")
      else if n % 4 = 2 && p < 2 then
        .error "Incorrect padding"
      else if n % 4 = 3 && p < 1 then
        .error "Incorrect padding"
      else
        .ok (b64Quads vals)

/-- Character of a 6-bit value in the standard Base64 alphabet. -/
def b64Char (v : Nat) : Char :=
  if v < 26 then Char.ofNat ('A'.toNat + v)
  else if v < 52 then Char.ofNat ('a'.toNat + (v - 26))
  else if v < 62 then Char.ofNat ('0'.toNat + (v - 52))
  else if v = 62 then '+'
  else '/'

/-- `base64.b64encode` on a byte sequence (standard alphabet, `=` padding). -/
def b64encode : List Nat → List Char
  | b0 :: b1 :: b2 :: rest =>
    b64Char (b0 / 4) :: b64Char ((b0 % 4) * 16 + b1 / 16) ::
      b64Char ((b1 % 16) * 4 + b2 / 64) :: b64Char (b2 % 64) :: b64encode rest
  | [b0, b1] =>
    [b64Char (b0 / 4), b64Char ((b0 % 4) * 16 + b1 / 16),
     b64Char ((b1 % 16) * 4), '=']
  | [b0] =>
    [b64Char (b0 / 4), b64Char ((b0 % 4) * 16), '=', '=']
  | [] => []

/-! ### `validators.py` — the five input validators.

Each is typed `String → Except String (Bool × String)`: an `Except.error`
would model an exception escaping the Python function, so the totality claim
is that every input yields `.ok`. -/

/-- `VALID_LANGUAGES` (`validators.py`). -/
def VALID_LANGUAGES : List String := ["auto", "en", "hi", "ta", "ml", "te"]

/-- `validate_url` (`validators.py`): empty check, then `urlparse` inside
`try`, scheme and netloc checks. -/
def validate_url (url : String) : Except String (Bool × String) :=
  if pyStrip url = "" then
    .ok (false, "URL cannot be empty")
  else
    match pyUrlsplit (pyStrip url) with
    | .ok (scheme, netloc) =>
      if scheme ≠ "http" ∧ scheme ≠ "https" then
        .ok (false, "URL must start with http:// or https://")
      else if netloc = "" then
        .ok (false, "Invalid URL format - missing domain")
      else
        .ok (true, "")
    | .error e => .ok (false, "URL parsing error: " ++ e)

/-- `validate_audio_url` (`validators.py`): `validate_url`, then the
extension check on `lower_url = url.lower().split('?')[0]` (the extension
check lowercases and splits the original `url` argument, not the stripped
one).  An exception escaping `validate_url` would propagate, as in the
source, where that call sits outside any `try`. -/
def validate_audio_url (url : String) : Except String (Bool × String) :=
  match validate_url url with
  | .error e => .error e
  | .ok (is_valid_url, error) =>
    if !is_valid_url then
      .ok (false, error)
    else if !(pyEndsWith (pySplitFirst (pyLower url) '?') ".mp3" ||
        pyEndsWith (pySplitFirst (pyLower url) '?') ".wav") then
      .ok (false, "Audio URL must end with .mp3 or .wav")
    else
      .ok (true, "")

/-- `validate_audio_base64` (`validators.py`): empty check, data-URI prefix
check, then `base64.b64decode(cleaned, validate=True)` inside `try` and the
100-byte floor. -/
def validate_audio_base64 (base64_string : String) : Except String (Bool × String) :=
  if pyStrip base64_string = "" then
    .ok (false, "Base64 audio data cannot be empty")
  else if pyStartsWith (pyStrip base64_string) "data:" then
    -- cleaned = base64_string.strip()
    .ok (false, "Remove data URI prefix (e.g., 'data:audio/mp3;base64,'). Provide only the Base64 content.")
  else
    match b64decodeStrict (pyStrip base64_string) with
    | .ok decoded =>
      if decoded.length < 100 then
        .ok (false, "Base64 data seems too short for an audio file")
      else
        .ok (true, "")
    | .error e => .ok (false, "Invalid Base64 encoding: " ++ e)

/-- `validate_api_key` (`validators.py`). -/
def validate_api_key (api_key : String) : Except String (Bool × String) :=
  if pyStrip api_key = "" then
    .ok (false, "API Key cannot be empty")
  else
    .ok (true, "")

/-- `validate_language` (`validators.py`). -/
def validate_language (language : String) : Except String (Bool × String) :=
  if language ∉ VALID_LANGUAGES then
    .ok (false, "Invalid language '" ++ language ++
      "'. Allowed: ['auto', 'en', 'hi', 'ta', 'ml', 'te']")
  else
    .ok (true, "")

/-- The boolean verdict of a validator result (`.error` — an escaped
exception — counts as no verdict, i.e. `false`). -/
def passes (r : Except String (Bool × String)) : Bool :=
  match r with
  | .ok (b, _) => b
  | .error _ => false

/-! ### `validators.py` — `validate_response_schema` -/

/-- `EXPECTED_SCHEMA["required_fields"]`. -/
def required_fields : List String := ["status", "classification", "confidence", "explanation"]

/-- `EXPECTED_SCHEMA["optional_fields"]`. -/
def optional_fields : List String := ["language", "processing_time_ms"]

/-- `EXPECTED_SCHEMA["valid_status"]`. -/
def valid_status : List String := ["success", "error"]

/-- `EXPECTED_SCHEMA["valid_classifications"]`. -/
def valid_classifications : List String := ["AI_GENERATED", "HUMAN", "UNKNOWN"]

/-- Python `v in list_of_strings` for a JSON value: only a `str` can equal a
`str` (the lists compared against hold only strings). -/
def jstrMem (v : JVal) (l : List String) : Bool :=
  match v with
  | .str s => l.contains s
  | _ => false

/-- Python `str(v)` for a JSON value, used only inside warning messages.
Containers are rendered in a JSON-like style rather than exact Python
`repr`; no claim inspects these characters. -/
def pyStr : JVal → String
  | .null => "None"
  | .bool b => if b then "True" else "False"
  | .num q i => if i then toString q.num else toString q
  | .str s => s
  | .arr _ => "[...]"
  | .obj _ => "{...}"

/-- `type(v).__name__` for a JSON value. -/
def pyTypeName : JVal → String
  | .null => "NoneType"
  | .bool _ => "bool"
  | .num _ i => if i then "int" else "float"
  | .str _ => "str"
  | .arr _ => "list"
  | .obj _ => "dict"

/-- Python truthiness (`not v`) of a JSON value. -/
def pyTruthy : JVal → Bool
  | .null => false
  | .bool b => b
  | .num q _ => q ≠ 0
  | .str s => s ≠ ""
  | .arr l => !l.isEmpty
  | .obj l => !l.isEmpty

/-- Numeric value of a run of decimal digits. -/
def digitsVal (cs : List Char) : Nat :=
  cs.foldl (fun a c => a * 10 + (c.toNat - '0'.toNat)) 0

/-- The optional exponent suffix of a Python float literal: empty, or
`e`/`E` followed by an optional sign and at least one digit. -/
def parseExpSuffix : List Char → Option Int
  | [] => some 0
  | e :: rest =>
    if e = 'e' || e = 'E' then
      let (sign, ds) : Int × List Char :=
        match rest with
        | '+' :: r => (1, r)
        | '-' :: r => (-1, r)
        | r => (1, r)
      if ds ≠ [] && ds.all Char.isDigit then some (sign * (digitsVal ds : Int))
      else none
    else none

/-- Python `float(s)` on a string: surrounding whitespace stripped, optional
sign, decimal digits with optional fraction and exponent.  (`inf`/`nan`
spellings and `_` digit separators are not modelled; no claim evaluates
them.) -/
def pyFloatOfString (s : String) : Option ℚ :=
  let cs := (pyStrip s).data
  let (sign, cs) : ℚ × List Char :=
    match cs with
    | '+' :: r => (1, r)
    | '-' :: r => (-1, r)
    | r => (1, r)
  let intPart := cs.takeWhile Char.isDigit
  let rest := cs.dropWhile Char.isDigit
  match rest with
  | '.' :: r2 =>
    let fracPart := r2.takeWhile Char.isDigit
    let rest2 := r2.dropWhile Char.isDigit
    if intPart = [] && fracPart = [] then none
    else
      (parseExpSuffix rest2).map fun e =>
        sign * ((digitsVal intPart : ℚ) +
          (digitsVal fracPart : ℚ) / 10 ^ fracPart.length) * 10 ^ e
  | rest2 =>
    if intPart = [] then none
    else (parseExpSuffix rest2).map fun e => sign * (digitsVal intPart : ℚ) * 10 ^ e

/-- The exceptions `float()` can raise on a JSON value: `ValueError` (an
unparsable string), `TypeError` (a non-coercible type), and `OverflowError`
(an `int` beyond the double range) — only the first two are caught by the
`except (ValueError, TypeError)` clause in `validate_response_schema`. -/
inductive PyExc where
  | valueError : PyExc
  | typeError : PyExc
  | overflowError : PyExc
deriving DecidableEq

/-- The smallest magnitude at which CPython `float(int)` overflows: an
integer with absolute value at least `2^1024 - 2^970` rounds (half-to-even)
to infinity, so the conversion raises
`OverflowError("int too large to convert to float")`. -/
def floatOverflowBound : ℤ := 2 ^ 1024 - 2 ^ 970

/-- Python `float(v)` on a JSON value: floats and booleans coerce, an `int`
coerces unless its magnitude reaches `floatOverflowBound` (then
`OverflowError`), strings parse (else `ValueError`; a decimal literal beyond
the double range parses to infinity, not an error, and is modelled by its
exact rational), and every other type raises `TypeError`.  A well-formed
`int` value `.num q true` has `q.den = 1`, so `q.num` is the integer. -/
def pyFloat : JVal → Except PyExc ℚ
  | .num q true =>
    if floatOverflowBound ≤ |q.num| then .error .overflowError else .ok q
  | .num q false => .ok q
  | .bool b => .ok (if b then 1 else 0)
  | .str s =>
    match pyFloatOfString s with
    | some q => .ok q
    | none => .error .valueError
  | _ => .error .typeError

/-- Python `repr` of a list of strings, for warning messages. -/
def pyReprStrList (l : List String) : String :=
  "[" ++ String.intercalate ", " (l.map (fun s => "'" ++ s ++ "'")) ++ "]"

/-- The steps of `validate_response_schema` after the confidence check —
explanation blankness, language membership, extra fields — and the final
`return (is_valid, warnings)`.  None of these steps can raise.  The
extra-field warning renders the extra keys in response order (CPython
renders a `set`, whose order is implementation-defined); no claim inspects
that string. -/
def schemaTail (response : JObj) (is_valid : Bool) (warnings : List String) :
    Bool × List String :=
  -- Validate 'explanation' field
  let warnings := warnings ++
    (match jlookup response "explanation" with
     | some v =>
       if !pyTruthy v ||
           (match v with | .str s => pyStrip s = "" | _ => false) then
         ["Explanation field is empty. Should provide reasoning for the classification."]
       else []
     | none => [])
  -- Validate 'language' field if present
  let warnings := warnings ++
    (match jlookup response "language" with
     | some v =>
       if !jstrMem v VALID_LANGUAGES then
         ["Invalid language value: '" ++ pyStr v ++ "'. Expected: " ++
           pyReprStrList VALID_LANGUAGES]
       else []
     | none => [])
  -- Check for extra unexpected fields
  let all_expected := required_fields ++ optional_fields ++ ["result"]
  let extra_fields := (response.map Prod.fst).dedup.filter (fun k => k ∉ all_expected)
  let warnings := warnings ++
    (if extra_fields ≠ [] then
      ["Extra fields in response: " ++ pyReprStrList extra_fields]
    else [])
  (is_valid, warnings)

/-- `validate_response_schema` (`validators.py`): required-field presence
decides `is_valid`; every later step only appends warnings — except that the
confidence step's `float(response["confidence"])` can raise `OverflowError`
on an integer beyond double range, which the surrounding
`except (ValueError, TypeError)` does not catch, so it escapes the function
(the `Except.error` case). -/
def validate_response_schema (response : JObj) : Except String (Bool × List String) :=
  -- Check required fields
  let step1 := required_fields.foldl
    (fun (acc : List String × Bool) field =>
      if (jlookup response field).isNone then
        (acc.1 ++ ["Missing required field: '" ++ field ++ "'"], false)
      else acc)
    ([], true)
  let warnings := step1.1
  let is_valid := step1.2
  -- Validate 'status' field
  let warnings := warnings ++
    (match jlookup response "status" with
     | some v =>
       if !jstrMem v valid_status then
         ["Invalid status value: '" ++ pyStr v ++ "'. Expected: " ++
           pyReprStrList valid_status]
       else []
     | none => [])
  -- Validate 'classification' field (new - replaces 'result')
  let warnings := warnings ++
    (match jlookup response "classification" with
     | some v =>
       if !jstrMem v valid_classifications then
         ["Invalid classification value: '" ++ pyStr v ++ "'. Expected: " ++
           pyReprStrList valid_classifications]
       else []
     | none => [])
  -- Backward compatibility: check for old 'result' field
  let warnings := warnings ++
    (if (jlookup response "result").isSome && (jlookup response "classification").isNone then
      ["Using deprecated 'result' field. Should use 'classification' instead."]
    else [])
  -- Validate 'confidence' field: float() inside try/except (ValueError,
  -- TypeError); OverflowError escapes
  match jlookup response "confidence" with
  | some v =>
    match pyFloat v with
    | .ok conf =>
      .ok (schemaTail response is_valid (warnings ++
        (if conf < 0 || 1 < conf then
          ["Confidence should be between 0 and 1, got: " ++ toString conf]
        else [])))
    | .error .valueError | .error .typeError =>
      .ok (schemaTail response is_valid (warnings ++
        ["Confidence should be a number, got: " ++ pyTypeName v]))
    | .error .overflowError => .error "int too large to convert to float"
  | none => .ok (schemaTail response is_valid warnings)

/-! ## Helper lemmas -/

/-- The required-field loop of `validate_response_schema` sets the validity
flag to the conjunction of the presence of every required field. -/
lemma requiredFold_snd (r : JObj) (fs : List String) (acc : List String × Bool) :
    (fs.foldl
      (fun (acc : List String × Bool) field =>
        if (jlookup r field).isNone then
          (acc.1 ++ ["Missing required field: '" ++ field ++ "'"], false)
        else acc)
      acc).2 = (acc.2 && fs.all (fun f => (jlookup r f).isSome)) := by
  induction fs generalizing acc with
  | nil => simp
  | cons f rest ih =>
    simp only [List.foldl_cons, List.all_cons]
    by_cases h : (jlookup r f).isNone
    · rw [if_pos h, ih]
      have : (jlookup r f).isSome = false := by
        simp [Option.isNone_iff_eq_none.mp h]
      simp [this]
    · rw [if_neg h, ih]
      have : (jlookup r f).isSome = true := by
        cases hv : jlookup r f with
        | none => exact absurd (by simp [hv]) h
        | some v => simp
      simp [this]

/-- `validate_url` always returns normally (every exception the body can
raise is caught). -/
lemma validate_url_ok (url : String) : ∃ p, validate_url url = Except.ok p := by
  unfold validate_url
  by_cases h : pyStrip url = ""
  · rw [if_pos h]; exact ⟨_, rfl⟩
  · rw [if_neg h]
    cases hs : pyUrlsplit (pyStrip url) with
    | ok p =>
      obtain ⟨scheme, netloc⟩ := p
      dsimp only
      split_ifs <;> exact ⟨_, rfl⟩
    | error e => exact ⟨_, rfl⟩

/-- `validate_audio_url` always returns normally. -/
lemma validate_audio_url_ok (url : String) :
    ∃ p, validate_audio_url url = Except.ok p := by
  obtain ⟨⟨b, m⟩, h⟩ := validate_url_ok url
  unfold validate_audio_url
  rw [h]
  dsimp only
  cases b
  · exact ⟨_, rfl⟩
  · split_ifs <;> exact ⟨_, rfl⟩

/-- `validate_audio_base64` always returns normally. -/
lemma validate_audio_base64_ok (s : String) :
    ∃ p, validate_audio_base64 s = Except.ok p := by
  unfold validate_audio_base64
  split_ifs with h1 h2
  · exact ⟨_, rfl⟩
  · exact ⟨_, rfl⟩
  · cases hd : b64decodeStrict (pyStrip s) with
    | ok bs =>
      dsimp only
      split_ifs <;> exact ⟨_, rfl⟩
    | error e => exact ⟨_, rfl⟩

/-- `validate_api_key` always returns normally. -/
lemma validate_api_key_ok (s : String) : ∃ p, validate_api_key s = Except.ok p := by
  unfold validate_api_key
  split_ifs <;> exact ⟨_, rfl⟩

/-- `validate_language` always returns normally. -/
lemma validate_language_ok (s : String) : ∃ p, validate_language s = Except.ok p := by
  unfold validate_language
  split_ifs <;> exact ⟨_, rfl⟩

/-! ## Claim theorems -/

/-- C1: for every combination of `audio_mode`, `audio_url`, `audio_base64`,
`language` and `message` (and timestamp), the payload built by
`APITester.build_payload` carries at most one of the keys `audio_url` and
`audio_base64`, never both. -/
theorem build_payload_exclusive (self : APITester)
    (audio_mode audio_url audio_base64 language message timestamp : String) :
    ¬((self.build_payload audio_mode audio_url audio_base64 language message
        timestamp).audio_url.isSome = true ∧
      (self.build_payload audio_mode audio_url audio_base64 language message
        timestamp).audio_base64.isSome = true) := by
  unfold APITester.build_payload
  split_ifs <;> simp

/-- Every run of `validate_response_schema` either raises the
`OverflowError` of the confidence coercion or returns a pair whose validity
flag is exactly the one computed by the required-field loop. -/
lemma validate_response_schema_shape (response : JObj) :
    validate_response_schema response =
        Except.error "int too large to convert to float" ∨
      ∃ w, validate_response_schema response =
        Except.ok
          ((required_fields.foldl
            (fun (acc : List String × Bool) field =>
              if (jlookup response field).isNone then
                (acc.1 ++ ["Missing required field: '" ++ field ++ "'"], false)
              else acc)
            ([], true)).2, w) := by
  unfold validate_response_schema
  cases jlookup response "confidence" with
  | none => right; exact ⟨_, rfl⟩
  | some v =>
    dsimp only
    cases pyFloat v with
    | ok conf => right; exact ⟨_, rfl⟩
    | error exc =>
      cases exc with
      | valueError => right; exact ⟨_, rfl⟩
      | typeError => right; exact ⟨_, rfl⟩
      | overflowError => left; rfl

/-- The required-field conjunction is false exactly when some required field
is absent. -/
lemma required_all_eq_false_iff (response : JObj) :
    (required_fields.all fun f => (jlookup response f).isSome) = false ↔
      ∃ f ∈ required_fields, jlookup response f = none := by
  constructor
  · intro h
    by_contra hc
    push_neg at hc
    have hall : (required_fields.all fun f => (jlookup response f).isSome) = true := by
      rw [List.all_eq_true]
      intro f hf
      cases hj : jlookup response f with
      | none => exact absurd hj (hc f hf)
      | some v => simp
    rw [hall] at h
    exact Bool.noConfusion h
  · rintro ⟨f, hf, hnone⟩
    cases hall : (required_fields.all fun f => (jlookup response f).isSome) with
    | false => rfl
    | true =>
      rw [List.all_eq_true] at hall
      have := hall f hf
      rw [hnone] at this
      simp at this

/-- C2, amended: whenever `validate_response_schema` returns an
`(is_valid, warnings)` pair — i.e. whenever the confidence coercion does not
raise an uncaught `OverflowError` — `is_valid` is false exactly when at
least one of the four required fields is absent, and every other check only
appends warnings. -/
theorem validate_response_schema_valid_iff (response : JObj)
    (p : Bool × List String)
    (h : validate_response_schema response = Except.ok p) :
    p.1 = false ↔ ∃ f ∈ required_fields, jlookup response f = none := by
  rcases validate_response_schema_shape response with he | ⟨w, hok⟩
  · rw [he] at h
    exact Except.noConfusion h
  · rw [hok] at h
    injection h with hp
    subst hp
    show (required_fields.foldl _ ([], true)).2 = false ↔ _
    rw [requiredFold_snd]
    simp only [Bool.true_and]
    exact required_all_eq_false_iff response

/-- Witness for C2 at a concrete fully-populated response (all four
required fields present; the non-numeric confidence only adds a warning) on
which `validate_response_schema` returns normally. -/
theorem validate_response_schema_valid_iff_witness :
    validate_response_schema
        [("status", JVal.str "success"), ("classification", JVal.str "HUMAN"),
         ("confidence", JVal.str "abc"), ("explanation", JVal.str "x")] =
      Except.ok (true, ["Confidence should be a number, got: str"]) ∧
    (((true : Bool), ["Confidence should be a number, got: str"]).1 = false ↔
      ∃ f ∈ required_fields,
        jlookup
          [("status", JVal.str "success"), ("classification", JVal.str "HUMAN"),
           ("confidence", JVal.str "abc"), ("explanation", JVal.str "x")]
          f = none) := by
  have h : validate_response_schema
      [("status", JVal.str "success"), ("classification", JVal.str "HUMAN"),
       ("confidence", JVal.str "abc"), ("explanation", JVal.str "x")] =
      Except.ok (true, ["Confidence should be a number, got: str"]) := by rfl
  exact ⟨h, validate_response_schema_valid_iff _ _ h⟩

/-- C2 counterexample: on a response carrying every required field whose
`confidence` is the JSON integer `10 ^ 400`, `validate_response_schema` does
not return a pair at all — `float(response["confidence"])` raises
`OverflowError`, which `except (ValueError, TypeError)` does not catch. -/
theorem validate_response_schema_overflow_raises :
    validate_response_schema
      [("status", JVal.str "success"), ("classification", JVal.str "HUMAN"),
       ("confidence", JVal.num ((10 : ℚ) ^ 400) true),
       ("explanation", JVal.str "x")] =
      Except.error "int too large to convert to float" := by
  have hb : floatOverflowBound ≤ |((10 : ℚ) ^ 400).num| := by
    rw [Rat.num_pow]
    have h10 : ((10 : ℚ).num) = 10 := rfl
    rw [h10, abs_of_nonneg (by positivity)]
    norm_num [floatOverflowBound]
  have hv : pyFloat (JVal.num ((10 : ℚ) ^ 400) true) =
      Except.error PyExc.overflowError := by
    simp only [pyFloat]
    rw [if_pos hb]
  have hj : jlookup
      [("status", JVal.str "success"), ("classification", JVal.str "HUMAN"),
       ("confidence", JVal.num ((10 : ℚ) ^ 400) true),
       ("explanation", JVal.str "x")] "confidence" =
      some (JVal.num ((10 : ℚ) ^ 400) true) := by rfl
  simp only [validate_response_schema, hj, hv]

/-- C3: for every integer status code absent from the explicit table,
`interpret_status_code` classifies by range: `[200, 300)` gives
PASS/success, `[400, 500)` gives FAIL/error, `[500, ∞)` gives FAIL/error,
and every code outside all these ranges gives UNKNOWN/warning; being a total
Lean function, it returns a defined triple for every integer, including 0
and negatives. -/
theorem interpret_status_code_ranges (c : Int) (h : status_map.lookup c = none) :
    ((200 ≤ c ∧ c < 300) →
      interpret_status_code c =
        ⟨"PASS", "Success (" ++ toString c ++ ")", "success"⟩) ∧
    ((400 ≤ c ∧ c < 500) →
      interpret_status_code c =
        ⟨"FAIL", "Client Error (" ++ toString c ++ ")", "error"⟩) ∧
    (500 ≤ c →
      interpret_status_code c =
        ⟨"FAIL", "Server Error (" ++ toString c ++ ")", "error"⟩) ∧
    ((¬(200 ≤ c ∧ c < 300) ∧ ¬(400 ≤ c ∧ c < 500) ∧ ¬(500 ≤ c)) →
      interpret_status_code c =
        ⟨"UNKNOWN", "Unexpected status code: " ++ toString c, "warning"⟩) := by
  unfold interpret_status_code
  rw [h]
  refine ⟨?_, ?_, ?_, ?_⟩ <;> intro hc
  · rw [if_pos hc]
  · rw [if_neg (by omega), if_pos hc]
  · rw [if_neg (by omega), if_neg (by omega), if_pos hc]
  · obtain ⟨h1, h2, h3⟩ := hc
    rw [if_neg h1, if_neg h2, if_neg h3]

/-- Witness for C3 at the untabulated codes 250 (PASS range) and -7
(outside every range). -/
theorem interpret_status_code_ranges_witness :
    (status_map.lookup (250 : Int) = none ∧
      interpret_status_code 250 =
        ⟨"PASS", "Success (" ++ toString (250 : Int) ++ ")", "success"⟩) ∧
    (status_map.lookup (-7 : Int) = none ∧
      interpret_status_code (-7) =
        ⟨"UNKNOWN", "Unexpected status code: " ++ toString (-7 : Int), "warning"⟩) := by
  refine ⟨⟨by decide, ?_⟩, ⟨by decide, ?_⟩⟩
  · exact (interpret_status_code_ranges 250 (by decide)).1 (by norm_num)
  · exact (interpret_status_code_ranges (-7) (by decide)).2.2.2 (by norm_num)

/-- C4 counterexample: `interpret_status_code 999` does not yield
UNKNOWN/warning (999 falls in the `>= 500` server-error range). -/
theorem interpret_status_code_999_not_unknown :
    ¬((interpret_status_code 999).verdict = "UNKNOWN" ∧
      (interpret_status_code 999).severity = "warning") := by
  decide

/-- C4, amended: `interpret_status_code` yields PASS/success at 200,
FAIL/error at 401, FAIL/error at 999 (the `>= 500` range, not
UNKNOWN/warning), and UNKNOWN/warning at 0. -/
theorem interpret_status_code_examples :
    ((interpret_status_code 200).verdict = "PASS" ∧
      (interpret_status_code 200).severity = "success") ∧
    ((interpret_status_code 401).verdict = "FAIL" ∧
      (interpret_status_code 401).severity = "error") ∧
    ((interpret_status_code 999).verdict = "FAIL" ∧
      (interpret_status_code 999).severity = "error") ∧
    ((interpret_status_code 0).verdict = "UNKNOWN" ∧
      (interpret_status_code 0).severity = "warning") := by
  decide

set_option maxRecDepth 20000 in
/-- C5: `validate_audio_base64` passes exactly on strings that strip to a
non-blank text without a `data:` prefix that strictly Base64-decodes to at
least 100 bytes; in particular the Base64 encoding of a 50-byte blob fails
(decoded length below the floor) and that of a 150-byte blob passes. -/
theorem validate_audio_base64_spec :
    (∀ s : String,
      passes (validate_audio_base64 s) = true ↔
        (pyStrip s ≠ "" ∧ pyStartsWith (pyStrip s) "data:" = false ∧
          ∃ bs, b64decodeStrict (pyStrip s) = Except.ok bs ∧ 100 ≤ bs.length)) ∧
    passes (validate_audio_base64 ⟨b64encode (List.replicate 50 0)⟩) = false ∧
    passes (validate_audio_base64 ⟨b64encode (List.replicate 150 0)⟩) = true := by
  refine ⟨?_, by decide, by decide⟩
  intro s
  unfold validate_audio_base64
  by_cases h1 : pyStrip s = ""
  · rw [if_pos h1]
    constructor
    · intro hx; simp [passes] at hx
    · rintro ⟨hne, -, -⟩; exact absurd h1 hne
  · rw [if_neg h1]
    by_cases h2 : pyStartsWith (pyStrip s) "data:" = true
    · rw [if_pos h2]
      constructor
      · intro hx; simp [passes] at hx
      · rintro ⟨-, hf, -⟩; rw [h2] at hf; exact Bool.noConfusion hf
    · rw [if_neg h2]
      cases hd : b64decodeStrict (pyStrip s) with
      | ok bs =>
        dsimp only
        by_cases h3 : bs.length < 100
        · rw [if_pos h3]
          constructor
          · intro hx; simp [passes] at hx
          · rintro ⟨-, -, bs', hbs', hlen⟩
            injection hbs' with heq
            subst heq
            exact absurd hlen (by omega)
        · rw [if_neg h3]
          constructor
          · intro _
            exact ⟨h1, Bool.not_eq_true _ ▸ h2, bs, rfl, by omega⟩
          · intro _; rfl
      | error e =>
        dsimp only
        constructor
        · intro hx; simp [passes] at hx
        · rintro ⟨-, -, bs', hbs', -⟩
          exact Except.noConfusion hbs'

/-- C6: when the network call times out, `send_request` returns a
`TestResult` with the dedicated status 408 (distinct from the 0 sentinel),
latency equal to the configured timeout times 1000, `success = False`, no
parsed body, and an error message naming the configured timeout. -/
theorem send_request_timeout_result (self : APITester) :
    (self.send_request NetOutcome.timeout).status_code = 408 ∧
    (self.send_request NetOutcome.timeout).status_code ≠ 0 ∧
    (self.send_request NetOutcome.timeout).latency_ms = (self.timeout : ℚ) * 1000 ∧
    (self.send_request NetOutcome.timeout).success = false ∧
    (self.send_request NetOutcome.timeout).response_data = none ∧
    (self.send_request NetOutcome.timeout).error_message =
      "Request timed out after " ++ toString self.timeout ++ " seconds" := by
  refine ⟨rfl, ?_, rfl, rfl, rfl, rfl⟩
  show (408 : Int) ≠ 0
  decide

/-- C7: on every outcome branch of `send_request`, the `raw_response` string
has length at most 2000 characters, whatever the response body or exception
text. -/
theorem send_request_raw_response_bounded (self : APITester) (o : NetOutcome) :
    (self.send_request o).raw_response.length ≤ 2000 := by
  cases o with
  | response status text json elapsed =>
    show (text.data.take 2000).length ≤ 2000
    rw [List.length_take]
    omega
  | timeout => show (0 : Nat) ≤ 2000; omega
  | connectionError e =>
    show (e.data.take 500).length ≤ 2000
    rw [List.length_take]
    omega
  | requestException e => show (0 : Nat) ≤ 2000; omega
  | unexpectedError e => show (0 : Nat) ≤ 2000; omega

/-- C8: each of the five input validators is total on strings: for every
string it returns an `(is_valid, message)` pair (`Except.ok`), never letting
an exception escape. -/
theorem validators_never_raise :
    (∀ s, ∃ p, validate_url s = Except.ok p) ∧
    (∀ s, ∃ p, validate_audio_url s = Except.ok p) ∧
    (∀ s, ∃ p, validate_audio_base64 s = Except.ok p) ∧
    (∀ s, ∃ p, validate_api_key s = Except.ok p) ∧
    (∀ s, ∃ p, validate_language s = Except.ok p) :=
  ⟨validate_url_ok, validate_audio_url_ok, validate_audio_base64_ok,
    validate_api_key_ok, validate_language_ok⟩

/-- C9: `validate_audio_url` passes exactly when `validate_url` passes and
the lowercased URL, stripped of its query string, ends in `.mp3` or `.wav`;
in particular `"https://x.com/a.mp3?x=1"` passes and
`"https://x.com/a.ogg"` fails. -/
theorem validate_audio_url_spec :
    (∀ url : String,
      passes (validate_audio_url url) = true ↔
        (passes (validate_url url) = true ∧
          (pyEndsWith (pySplitFirst (pyLower url) '?') ".mp3" ||
            pyEndsWith (pySplitFirst (pyLower url) '?') ".wav") = true)) ∧
    passes (validate_audio_url "https://x.com/a.mp3?x=1") = true ∧
    passes (validate_audio_url "https://x.com/a.ogg") = false := by
  refine ⟨?_, by decide, by decide⟩
  intro url
  obtain ⟨⟨b, m⟩, h⟩ := validate_url_ok url
  unfold validate_audio_url
  rw [h]
  dsimp only
  cases b with
  | false => simp [passes, h]
  | true =>
    cases hx : (pyEndsWith (pySplitFirst (pyLower url) '?') ".mp3" ||
        pyEndsWith (pySplitFirst (pyLower url) '?') ".wav") with
    | false => simp [passes, h, hx]
    | true => simp [passes, h, hx]

/-- C10: every `audio_mode` other than exactly `"url"` takes the Base64
branch of `build_payload`: the payload gets the stripped `audio_base64`
value under the `audio_base64` key and no `audio_url` key; an invalid mode
is never rejected. -/
theorem build_payload_nonurl_mode (self : APITester)
    (audio_mode audio_url audio_base64 language message timestamp : String)
    (h : audio_mode ≠ "url") :
    (self.build_payload audio_mode audio_url audio_base64 language message
      timestamp).audio_base64 = some (pyStrip audio_base64) ∧
    (self.build_payload audio_mode audio_url audio_base64 language message
      timestamp).audio_url = none := by
  simp [APITester.build_payload, h]

/-- Witness for C10 at the unrecognized mode `"URL"`. -/
theorem build_payload_nonurl_mode_witness :
    ("URL" : String) ≠ "url" ∧
    ((APITester.make "e" "k" 15).build_payload "URL" "u" " abc " "auto" "" "ts").audio_base64 =
      some "abc" ∧
    ((APITester.make "e" "k" 15).build_payload "URL" "u" " abc " "auto" "" "ts").audio_url =
      none := by
  have h := build_payload_nonurl_mode (APITester.make "e" "k" 15)
    "URL" "u" " abc " "auto" "" "ts" (by decide)
  exact ⟨by decide, h.1.trans (by decide), h.2⟩

end VoiceDetect
